import Mathlib

/-
Verification of the brain-tumor MRI classification inference service.

Shallow embedding of `config.py`, `image_utils.py`, `predictor.py`, the
startup lifecycle of `main.py`/`model_loader.py`, and the `/predict`
request pipeline of `main.py`.

Modelling conventions:
* float32 values are modelled exactly: rationals for preprocessing
  arithmetic and reals for the softmax, so no rounding error is modelled;
* the external decoder (PIL `Image.open` followed by `convert("RGB")`)
  is an abstract parameter producing an `RGBImage` (3 channels, 8-bit
  pixel values) or failing; the library resize
  (`torchvision.transforms.Resize((224, 224))`) is modelled as a
  deterministic per-pixel sampling of the source image — the theorems
  below depend only on the output dimensions and on every output value
  being one of the source pixel values;
* a Python function that can raise is embedded with `Except`; the
  value returned by `preprocess_image` is wrapped in `Option` because
  its caller in `main.py` tests it against `None`.
-/

namespace Service

namespace config

/-- config.py line 9: `NUM_CLASSES = 4`. -/
abbrev NUM_CLASSES : ℕ := 4

/-- config.py line 10: `IMAGE_SIZE = 224`. -/
abbrev IMAGE_SIZE : ℕ := 224

/-- config.py line 13: `CLASS_NAMES = ['glioma', 'meningioma', 'notumor', 'pituitary']`. -/
def CLASS_NAMES : List String := ["glioma", "meningioma", "notumor", "pituitary"]

/-- config.py line 15: `NORMALIZE_MEAN = [0.485, 0.456, 0.406]`. -/
def NORMALIZE_MEAN : List ℚ := [0.485, 0.456, 0.406]

/-- config.py line 16: `NORMALIZE_STD = [0.229, 0.224, 0.225]`. -/
def NORMALIZE_STD : List ℚ := [0.229, 0.224, 0.225]

end config

/-- A decoded image after `Image.open(io.BytesIO(image_bytes))` followed by
`image.convert("RGB")` (image_utils.py lines 18-20): a pixel grid with
3 channels of 8-bit values. `pixel x y c` is channel `c` of the pixel at
column `x`, row `y`. -/
structure RGBImage where
  width : ℕ
  height : ℕ
  pixel : ℕ → ℕ → ℕ → ℕ
  pixel_lt : ∀ x y c, pixel x y c < 256

/-- A rank-3 tensor (channels, height, width) with explicit shape metadata,
mirroring a `torch.Tensor` of that rank. -/
structure Tensor3 where
  dims : ℕ × ℕ × ℕ
  data : ℕ → ℕ → ℕ → ℚ

/-- A rank-4 tensor (batch, channels, height, width) with explicit shape
metadata, mirroring a `torch.Tensor` of that rank. -/
structure Tensor4 where
  dims : ℕ × ℕ × ℕ × ℕ
  data : ℕ → ℕ → ℕ → ℕ → ℚ

/-- The external byte decoder: models PIL `Image.open` + `convert("RGB")`
(image_utils.py lines 18-20), an external library call. `none` models the
exception PIL raises on bytes that are not a valid image. -/
def Decoder : Type := List ℕ → Option RGBImage

/-- image_utils.py line 24: `transforms.Resize((config.IMAGE_SIZE, config.IMAGE_SIZE))`,
an external torchvision call. Modelled as deterministic per-pixel sampling of
the source image: the output is 224 by 224 and every output value is a source
pixel value (aspect ratio is not preserved; the image is stretched). -/
def resize (image : RGBImage) : RGBImage :=
  ⟨config.IMAGE_SIZE, config.IMAGE_SIZE,
    fun x y c =>
      image.pixel (x * image.width / config.IMAGE_SIZE) (y * image.height / config.IMAGE_SIZE) c,
    fun _ _ _ => image.pixel_lt _ _ _⟩

/-- image_utils.py line 25: `transforms.ToTensor()` — converts the H-by-W
RGB image to a (3, H, W) float tensor scaled to [0, 1] by dividing the
8-bit values by 255. -/
def to_tensor (image : RGBImage) : Tensor3 :=
  ⟨(3, image.height, image.width), fun c h w => (image.pixel w h c : ℚ) / 255⟩

/-- image_utils.py line 26: `transforms.Normalize(mean=config.NORMALIZE_MEAN, std=config.NORMALIZE_STD)`
— per-channel `(value - mean) / std` with the fixed constants. -/
def normalize (t : Tensor3) : Tensor3 :=
  ⟨t.dims,
    fun c h w => (t.data c h w - config.NORMALIZE_MEAN.getD c 0) / config.NORMALIZE_STD.getD c 1⟩

/-- image_utils.py line 32: `image_tensor.unsqueeze(0)` — adds a leading
batch dimension of size 1. -/
def unsqueeze (t : Tensor3) : Tensor4 :=
  ⟨(1, t.dims.1, t.dims.2.1, t.dims.2.2), fun _ c h w => t.data c h w⟩

/-- image_utils.py lines 7-34: `preprocess_image(image_bytes)`. Decode (may
raise, modelled by `Except.error`), convert to RGB, then apply the composed
transform resize → to-tensor → normalize and add the batch dimension. The
happy path always returns an actual tensor (`some`), never `None`. -/
def preprocess_image (dec : Decoder) (image_bytes : List ℕ) : Except String (Option Tensor4) :=
  match dec image_bytes with
  | none => Except.error "cannot identify image file"
  | some image => Except.ok (some (unsqueeze (normalize (to_tensor (resize image)))))

/-- A loaded torch model: an opaque learned function from the input tensor
to a logit vector of length `NUM_CLASSES` (model_loader.py returns it in
eval mode; its weights are an external artifact). -/
def Model : Type := Tensor4 → Fin config.NUM_CLASSES → ℝ

/-- predictor.py line 25: `F.softmax(outputs, dim=1)` on the single row of
logits. -/
noncomputable def softmax (outputs : Fin config.NUM_CLASSES → ℝ) : Fin config.NUM_CLASSES → ℝ :=
  fun i => Real.exp (outputs i) / ∑ j, Real.exp (outputs j)

/-- One comparison step of `torch.max(probabilities_tensor, 1)`: keep the
current best index unless a strictly larger value appears, so exact ties
keep the earlier (lower) index. -/
noncomputable def argmaxStep (p : Fin config.NUM_CLASSES → ℝ)
    (best i : Fin config.NUM_CLASSES) : Fin config.NUM_CLASSES :=
  if p best < p i then i else best

/-- predictor.py line 27: `_, predicted_idx = torch.max(probabilities_tensor, 1)`
— the index of the first maximal value of the 4 probabilities. -/
noncomputable def torchMaxIdx (p : Fin config.NUM_CLASSES → ℝ) : Fin config.NUM_CLASSES :=
  argmaxStep p (argmaxStep p (argmaxStep p 0 1) 2) 3

/-- predictor.py lines 5-35: `predict(model, image_tensor)` — forward pass,
softmax, argmax, then zip the class names with the probability list. -/
noncomputable def predict (model : Model) (image_tensor : Tensor4) :
    String × List (String × ℝ) :=
  let probabilities := softmax (model image_tensor)
  let predicted_idx := torchMaxIdx probabilities
  (config.CLASS_NAMES.getD predicted_idx.val "",
    config.CLASS_NAMES.zip (List.ofFn probabilities))

/-- main.py line 24: `MAX_FILE_SIZE = 5 * 1024 * 1024`. -/
def MAX_FILE_SIZE : ℕ := 5 * 1024 * 1024

/-- main.py lines 106-109: the `allowed_types` list. -/
def allowed_types : List String :=
  ["image/jpeg", "image/png", "image/jpg", "image/bmp", "image/gif", "image/tiff", "image/webp"]

/-- An incoming upload: filename, declared content type, raw bytes. -/
structure Request where
  filename : String
  content_type : String
  contents : List ℕ

/-- main.py lines 27-33: `PredictionResponse`. -/
structure PredictionResponse where
  filename : String
  prediction : String
  confidence_scores : List (String × ℝ)

/-- main.py lines 35-37: `HealthResponse`. -/
structure HealthResponse where
  status : String
  message : String

/-- The caller-visible outcome of one `/predict` request: either a success
response or one of the raised `HTTPException`s (or the outermost generic
handler's 500). -/
inductive Outcome where
  | success (response : PredictionResponse)
  | unsupportedMediaType
  | payloadTooLarge
  | corruptedImage
  | modelUnavailable
  | internalError

/-- The HTTP status code attached to each outcome in main.py. -/
def statusCode : Outcome → ℕ
  | Outcome.success _ => 200
  | Outcome.unsupportedMediaType => 400
  | Outcome.payloadTooLarge => 413
  | Outcome.corruptedImage => 400
  | Outcome.modelUnavailable => 503
  | Outcome.internalError => 500

/-- main.py lines 98-165: `predict_image(file)`. Type check, then size
check, then preprocessing (its exception escapes the specific handlers and
is absorbed by the outermost `except Exception` as a 500; the `None` test
of line 131 is the `corruptedImage` branch), then the model-availability
check, then inference and response assembly. `HTTPException`s raised by
the checks are re-raised unchanged by the `except HTTPException` clause. -/
noncomputable def predict_image (dec : Decoder) (ml_model : Option Model)
    (file : Request) : Outcome :=
  if file.content_type ∉ allowed_types then Outcome.unsupportedMediaType
  else if MAX_FILE_SIZE < file.contents.length then Outcome.payloadTooLarge
  else
    match preprocess_image dec file.contents with
    | Except.error _ => Outcome.internalError
    | Except.ok none => Outcome.corruptedImage
    | Except.ok (some image_tensor) =>
      match ml_model with
      | none => Outcome.modelUnavailable
      | some model =>
        Outcome.success
          ⟨file.filename, (predict model image_tensor).1, (predict model image_tensor).2⟩

/-- main.py lines 86-95: the `GET /` handler body — a constant response. -/
def health_check : HealthResponse :=
  ⟨"healthy", "Brain Tumor Classifier API is active."⟩

/-- The health route as a function of the service state: the handler in
main.py takes no arguments and reads no globals, so the state is ignored. -/
def health_endpoint (ml_model : Option Model) : HealthResponse :=
  health_check

/-- Result of process startup: either the process exited or it is running
and serving with the given loaded model. -/
inductive StartupOutcome where
  | exited (code : ℕ)
  | running (model : Model)

/-- main.py lines 44-63: the startup half of `lifespan`, as a function of
the result of `model_loader.load_model()` (whose failures — missing file,
weight deserialization error, shape mismatch in `load_state_dict` — all
surface as exceptions): on success the model is stored and the app serves;
on any exception the process terminates via `sys.exit(1)`. -/
def lifespan (load_result : Except String Model) : StartupOutcome :=
  match load_result with
  | Except.ok model => StartupOutcome.running model
  | Except.error _ => StartupOutcome.exited 1

/-- The part of an outcome the determinism claim compares: the predicted
label and confidence scores of a successful response (the filename is
echoed from the request and excluded). -/
def resultBody : Outcome → Option (String × List (String × ℝ))
  | Outcome.success r => some (r.prediction, r.confidence_scores)
  | _ => none

/-- A decoder that fails on every input: models PIL rejecting bytes that
are not a valid image. -/
def decNone : Decoder := fun _ => none

/-- A concrete 1-by-1 black test image. -/
def imgW : RGBImage := ⟨1, 1, fun _ _ _ => 0, fun _ _ _ => by norm_num⟩

/-- A decoder that succeeds on every input with the concrete test image. -/
def decW : Decoder := fun _ => some imgW

/-- A concrete model emitting the zero logit vector. -/
def modelW : Model := fun _ _ => 0

/-- The concrete tensor obtained by preprocessing the test image. -/
def tensorW : Tensor4 := unsqueeze (normalize (to_tensor (resize imgW)))

/-- The softmax denominator is positive. -/
lemma exp_sum_pos (outputs : Fin config.NUM_CLASSES → ℝ) :
    0 < ∑ j, Real.exp (outputs j) :=
  Finset.sum_pos (fun j _ => Real.exp_pos _) ⟨0, Finset.mem_univ _⟩

/-- Every softmax output is non-negative. -/
lemma softmax_nonneg (outputs : Fin config.NUM_CLASSES → ℝ) (i : Fin config.NUM_CLASSES) :
    0 ≤ softmax outputs i :=
  le_of_lt (div_pos (Real.exp_pos _) (exp_sum_pos outputs))

/-- The softmax outputs sum to 1. -/
lemma softmax_sum (outputs : Fin config.NUM_CLASSES → ℝ) :
    ∑ i, softmax outputs i = 1 := by
  unfold softmax
  rw [← Finset.sum_div, div_self (ne_of_gt (exp_sum_pos outputs))]

/-- `torchMaxIdx` returns a maximizer, and the least index among the
maximizers (exact ties go to the lower index). -/
lemma torchMaxIdx_spec (p : Fin config.NUM_CLASSES → ℝ) :
    (∀ j, p j ≤ p (torchMaxIdx p)) ∧
      (∀ j, p j = p (torchMaxIdx p) → torchMaxIdx p ≤ j) := by
  have hj4 : ∀ j : Fin config.NUM_CLASSES, j = 0 ∨ j = 1 ∨ j = 2 ∨ j = 3 := by decide
  unfold torchMaxIdx argmaxStep
  split_ifs with h1 h2 h3 h4 h5 h6 h7 <;>
    refine ⟨fun j => ?_, fun j hj => ?_⟩ <;>
      rcases hj4 j with rfl | rfl | rfl | rfl <;>
        first
          | decide
          | linarith

/-- C1: for every successful prediction, the returned scores mapping has
exactly one entry for each of the 4 fixed class labels in their fixed
order, every score is non-negative, the scores sum to 1.0 (hence within
1e-6 of it), and the predicted label is the label whose score is maximal,
with exact ties broken by the lowest index in the fixed label ordering. -/
theorem c1_prediction_result_invariants (model : Model) (image_tensor : Tensor4) :
    (predict model image_tensor).2 =
        config.CLASS_NAMES.zip (List.ofFn (softmax (model image_tensor))) ∧
      ((predict model image_tensor).2.map Prod.fst = config.CLASS_NAMES ∧
        config.CLASS_NAMES.Nodup ∧ (predict model image_tensor).2.length = 4) ∧
      (∀ s ∈ (predict model image_tensor).2, 0 ≤ s.2) ∧
      (((predict model image_tensor).2.map Prod.snd).sum = 1 ∧
        |((predict model image_tensor).2.map Prod.snd).sum - 1| ≤ 1 / 1000000) ∧
      (∃ i : Fin config.NUM_CLASSES,
        (predict model image_tensor).1 = config.CLASS_NAMES.getD i.val "" ∧
        (∀ j, softmax (model image_tensor) j ≤ softmax (model image_tensor) i) ∧
        (∀ j, softmax (model image_tensor) j = softmax (model image_tensor) i → i ≤ j)) := by
  have hlen : config.CLASS_NAMES.length = (List.ofFn (softmax (model image_tensor))).length := by
    simp [config.CLASS_NAMES]
  have hsnd : ((predict model image_tensor).2.map Prod.snd) =
      List.ofFn (softmax (model image_tensor)) :=
    List.map_snd_zip _ _ (le_of_eq hlen.symm)
  have hsum : ((predict model image_tensor).2.map Prod.snd).sum = 1 := by
    rw [hsnd, List.sum_ofFn, softmax_sum]
  obtain ⟨hmax, hmin⟩ := torchMaxIdx_spec (softmax (model image_tensor))
  refine ⟨rfl, ⟨List.map_fst_zip _ _ (le_of_eq hlen), by decide, by simp [predict, config.CLASS_NAMES]⟩,
    ?_, ⟨hsum, by rw [hsum]; norm_num⟩,
    ⟨torchMaxIdx (softmax (model image_tensor)), rfl, hmax, hmin⟩⟩
  intro s hs
  obtain ⟨-, h2⟩ := List.of_mem_zip hs
  obtain ⟨i, hi⟩ := (List.mem_ofFn _ _).mp h2
  rw [← hi]
  exact softmax_nonneg _ _

/-- C1 witness: at a concrete model and tensor, the returned confidence
scores sum to 1. -/
theorem c1_witness : ((predict modelW tensorW).2.map Prod.snd).sum = 1 :=
  (c1_prediction_result_invariants modelW tensorW).2.2.2.1.1

/-- Bounds for one normalized channel value: a [0,1] value shifted by a
mean and divided by a positive std stays within [-3, 3] when the mean and
its complement are at most 3 standard deviations. -/
lemma norm_bound (v m s : ℚ) (hv0 : 0 ≤ v) (hv1 : v ≤ 1) (hs : 0 < s)
    (hm1 : m ≤ 3 * s) (hm2 : 1 - m ≤ 3 * s) :
    -3 ≤ (v - m) / s ∧ (v - m) / s ≤ 3 := by
  constructor
  · rw [le_div_iff₀ hs]
    linarith
  · rw [div_le_iff₀ hs]
    linarith

/-- A pixel value scaled by `ToTensor` lies in [0, 1]. -/
lemma pixel_scaled_mem (image : RGBImage) (x y c : ℕ) :
    0 ≤ (image.pixel x y c : ℚ) / 255 ∧ (image.pixel x y c : ℚ) / 255 ≤ 1 := by
  have h := image.pixel_lt x y c
  constructor
  · positivity
  · rw [div_le_one (by norm_num)]
    exact_mod_cast Nat.le_of_lt_succ h

/-- C2: for every byte string the decoder accepts, `preprocess_image`
produces exactly the composition decode/convert → resize to 224 by 224 →
scale to [0,1] and per-channel normalize → add batch dimension (in that
order), and the resulting tensor has shape (1, 3, 224, 224) with every
value on the 3 channels bounded (|value| ≤ 3, in particular finite). -/
theorem c2_normalize_shape_and_bounds (dec : Decoder) (image_bytes : List ℕ)
    (img : RGBImage) (h : dec image_bytes = some img) :
    ∃ t : Tensor4,
      preprocess_image dec image_bytes = Except.ok (some t) ∧
      t = unsqueeze (normalize (to_tensor (resize img))) ∧
      t.dims = (1, 3, 224, 224) ∧
      ∀ n c i j, c < 3 → |t.data n c i j| ≤ 3 := by
  refine ⟨unsqueeze (normalize (to_tensor (resize img))), ?_, rfl, rfl, ?_⟩
  · unfold preprocess_image
    rw [h]
  · intro n c i j hc
    obtain ⟨hv0, hv1⟩ := pixel_scaled_mem (resize img) j i c
    rw [abs_le]
    interval_cases c <;>
      simpa only [unsqueeze, normalize, to_tensor, config.NORMALIZE_MEAN,
        config.NORMALIZE_STD, List.getD, List.getElem?_cons_zero,
        List.getElem?_cons_succ, Option.getD_some] using
        norm_bound _ _ _ hv0 hv1 (by norm_num) (by norm_num) (by norm_num)

/-- C2 witness: a concrete decoder and byte string satisfying the
hypothesis, with the resulting concrete tensor facts. -/
theorem c2_witness :
    decW [0] = some imgW ∧
    ∃ t : Tensor4,
      preprocess_image decW [0] = Except.ok (some t) ∧
      t = unsqueeze (normalize (to_tensor (resize imgW))) ∧
      t.dims = (1, 3, 224, 224) ∧
      ∀ n c i j, c < 3 → |t.data n c i j| ≤ 3 :=
  ⟨rfl, c2_normalize_shape_and_bounds decW [0] imgW rfl⟩

/-- The accepted image formats of the spec: {jpeg, png, bmp, gif, tiff, webp}. -/
inductive ImageFormat where
  | jpeg
  | png
  | bmp
  | gif
  | tiff
  | webp
deriving DecidableEq

/-- The image format a declared media-type string declares, if any.
Both `image/jpeg` and its common alias `image/jpg` declare the jpeg
format; any string outside the accepted set declares no format. -/
def declaresFormat (ct : String) : Option ImageFormat :=
  if ct = "image/jpeg" ∨ ct = "image/jpg" then some ImageFormat.jpeg
  else if ct = "image/png" then some ImageFormat.png
  else if ct = "image/bmp" then some ImageFormat.bmp
  else if ct = "image/gif" then some ImageFormat.gif
  else if ct = "image/tiff" then some ImageFormat.tiff
  else if ct = "image/webp" then some ImageFormat.webp
  else none

/-- Membership in the code's `allowed_types` list coincides with declaring
one of the six accepted image formats. -/
lemma mem_allowed_iff (ct : String) :
    ct ∈ allowed_types ↔ declaresFormat ct ≠ none := by
  simp only [allowed_types, List.mem_cons, List.not_mem_nil, or_false]
  unfold declaresFormat
  split_ifs with h1 h2 h3 h4 h5 h6 <;> simp_all <;> tauto

/-- The pipeline never answers `unsupportedMediaType` once the declared
type is in the allowed list. -/
lemma not_umt_of_mem (dec : Decoder) (ml_model : Option Model) (req : Request)
    (hct : req.content_type ∈ allowed_types) :
    predict_image dec ml_model req ≠ Outcome.unsupportedMediaType := by
  unfold predict_image
  rw [if_neg (not_not_intro hct)]
  split_ifs
  · exact fun h => nomatch h
  · cases hp : preprocess_image dec req.contents with
    | error e => exact fun h => nomatch h
    | ok v =>
      cases v with
      | none => exact fun h => nomatch h
      | some t =>
        cases ml_model with
        | none => exact fun h => nomatch h
        | some m => exact fun h => nomatch h

/-- C6: the pipeline yields the unsupported-media-type outcome if and only
if the declared media type declares none of the six accepted formats
{jpeg, png, bmp, gif, tiff, webp}; since the right-hand side does not
mention the payload, the decoder or the model state, the check is
independent of the byte content and of everything the pipeline does after
reading the payload. -/
theorem c6_media_type_gate (dec : Decoder) (ml_model : Option Model)
    (fn ct : String) (b : List ℕ) :
    predict_image dec ml_model ⟨fn, ct, b⟩ = Outcome.unsupportedMediaType ↔
      declaresFormat ct = none := by
  by_cases hct : ct ∈ allowed_types
  · exact iff_of_false (not_umt_of_mem dec ml_model ⟨fn, ct, b⟩ hct)
      ((mem_allowed_iff ct).mp hct)
  · refine iff_of_true ?_ (not_ne_iff.mp (fun h => hct ((mem_allowed_iff ct).mpr h)))
    unfold predict_image
    exact if_pos hct

/-- C6 witness: at a concrete unaccepted media type, the gate equivalence
instantiates to a true biconditional. -/
theorem c6_witness :
    predict_image decNone none ⟨"f.txt", "text/plain", [0]⟩ =
        Outcome.unsupportedMediaType ↔
      declaresFormat "text/plain" = none :=
  c6_media_type_gate decNone none "f.txt" "text/plain" [0]

/-- C5 counterexample: an oversized payload (5 MiB + 1 byte) whose declared
media type is not accepted is answered with `unsupportedMediaType`, not
`payloadTooLarge` — the type check runs before the size check. -/
theorem c5_counterexample :
    5 * 1024 * 1024 < (List.replicate (5 * 1024 * 1024 + 1) (0 : ℕ)).length ∧
    predict_image decNone none
        ⟨"big.bin", "text/plain", List.replicate (5 * 1024 * 1024 + 1) 0⟩ =
      Outcome.unsupportedMediaType ∧
    Outcome.unsupportedMediaType ≠ Outcome.payloadTooLarge := by
  refine ⟨by rw [List.length_replicate]; omega, ?_, fun h => nomatch h⟩
  unfold predict_image
  exact if_pos (by decide)

/-- C5 (amended): for every request whose declared media type is accepted,
a payload strictly larger than 5 MiB yields `payloadTooLarge` regardless
of content validity and before any decode attempt (the decoder is
arbitrary), and a payload of at most 5 MiB passes the size check. -/
theorem c5_size_limit_amended (dec : Decoder) (ml_model : Option Model)
    (fn ct : String) (b : List ℕ) (hct : ct ∈ allowed_types) :
    (MAX_FILE_SIZE < b.length →
      predict_image dec ml_model ⟨fn, ct, b⟩ = Outcome.payloadTooLarge) ∧
    (b.length ≤ MAX_FILE_SIZE →
      predict_image dec ml_model ⟨fn, ct, b⟩ ≠ Outcome.payloadTooLarge) := by
  constructor
  · intro hsz
    unfold predict_image
    rw [if_neg (not_not_intro hct)]
    exact if_pos hsz
  · intro hsz
    unfold predict_image
    rw [if_neg (not_not_intro hct), if_neg (not_lt_of_le hsz)]
    cases hp : preprocess_image dec b with
    | error e => exact fun h => nomatch h
    | ok v =>
      cases v with
      | none => exact fun h => nomatch h
      | some t =>
        cases ml_model with
        | none => exact fun h => nomatch h
        | some m => exact fun h => nomatch h

/-- C5 witness: a concrete accepted-type request of exactly 5 MiB + 1 byte
is answered with `payloadTooLarge`. -/
theorem c5_witness :
    "image/jpeg" ∈ allowed_types ∧
    predict_image decNone none
        ⟨"big.jpg", "image/jpeg", List.replicate (5 * 1024 * 1024 + 1) 0⟩ =
      Outcome.payloadTooLarge :=
  ⟨by decide,
    (c5_size_limit_amended decNone none "big.jpg" "image/jpeg"
        (List.replicate (5 * 1024 * 1024 + 1) 0) (by decide)).1
      (by rw [List.length_replicate]; exact Nat.lt_succ_self (5 * 1024 * 1024))⟩

/-- C3: a payload declared as an accepted type, within the size limit, but
undecodable as an image (here: a 1-byte body the decoder rejects, with the
model loaded) is answered by the outermost generic handler with the
internal-error outcome (HTTP 500), not with the rejected-input outcome
(HTTP 400) the spec requires: the decode exception raised inside
`preprocess_image` bypasses the corrupted-file branch of main.py. -/
theorem c3_decode_failure_maps_to_internal_error :
    predict_image decNone (some modelW) ⟨"random.jpg", "image/jpeg", [0]⟩ =
        Outcome.internalError ∧
      statusCode Outcome.internalError = 500 ∧
      statusCode Outcome.corruptedImage = 400 := by
  refine ⟨?_, rfl, rfl⟩
  unfold predict_image
  rw [if_neg (by decide), if_neg (by decide)]
  rfl

/-- C4: the model-availability check runs only after the type, size and
decode stages, so any request failing one of those stages gets the same
outcome whether or not the model is loaded; and a request passing all of
them while the model is not loaded gets the temporarily-unavailable
outcome (HTTP 503), a status distinct from every validation/decode error
status. -/
theorem c4_model_gate_after_validation (dec : Decoder) (m : Model) (req : Request) :
    ((req.content_type ∉ allowed_types ∨ MAX_FILE_SIZE < req.contents.length ∨
        ∀ t, preprocess_image dec req.contents ≠ Except.ok (some t)) →
      predict_image dec none req = predict_image dec (some m) req) ∧
    (∀ t, preprocess_image dec req.contents = Except.ok (some t) →
      req.content_type ∈ allowed_types → req.contents.length ≤ MAX_FILE_SIZE →
      predict_image dec none req = Outcome.modelUnavailable ∧
      statusCode Outcome.modelUnavailable = 503 ∧
      statusCode Outcome.modelUnavailable ≠ statusCode Outcome.unsupportedMediaType ∧
      statusCode Outcome.modelUnavailable ≠ statusCode Outcome.payloadTooLarge ∧
      statusCode Outcome.modelUnavailable ≠ statusCode Outcome.corruptedImage ∧
      statusCode Outcome.modelUnavailable ≠ statusCode Outcome.internalError) := by
  constructor
  · intro h
    unfold predict_image
    by_cases h1 : req.content_type ∉ allowed_types
    · rw [if_pos h1, if_pos h1]
    · rw [if_neg h1, if_neg h1]
      by_cases h2 : MAX_FILE_SIZE < req.contents.length
      · rw [if_pos h2, if_pos h2]
      · rw [if_neg h2, if_neg h2]
        rcases h with h | h | h
        · exact absurd h h1
        · exact absurd h h2
        · cases hp : preprocess_image dec req.contents with
          | error e => rfl
          | ok v =>
            cases v with
            | none => rfl
            | some t => exact absurd hp (h t)
  · intro t hp hct hsz
    refine ⟨?_, rfl, by decide, by decide, by decide, by decide⟩
    unfold predict_image
    rw [if_neg (not_not_intro hct), if_neg (not_lt_of_le hsz), hp]

/-- C4 witness: a concrete request that passes type, size and decode
validation while no model is loaded is answered `modelUnavailable`. -/
theorem c4_witness :
    preprocess_image decW [0] =
        Except.ok (some (unsqueeze (normalize (to_tensor (resize imgW))))) ∧
      predict_image decW none ⟨"w.jpg", "image/jpeg", [0]⟩ = Outcome.modelUnavailable :=
  ⟨rfl,
    ((c4_model_gate_after_validation decW modelW ⟨"w.jpg", "image/jpeg", [0]⟩).2
        (unsqueeze (normalize (to_tensor (resize imgW)))) rfl (by decide) (by decide)).1⟩

/-- C9: `preprocess_image` never returns `None` — on every byte input it
either raises (`Except.error`) or returns an actual tensor — so the
pipeline branch answering `corruptedImage` (the HTTP 400 of main.py lines
131-135) is unreachable, and a decode failure on a request that passed the
type and size checks instead reaches the outermost generic handler
(`internalError`). -/
theorem c9_preprocess_never_none (dec : Decoder) (ml_model : Option Model) (req : Request) :
    ((∃ e, preprocess_image dec req.contents = Except.error e) ∨
        ∃ t, preprocess_image dec req.contents = Except.ok (some t)) ∧
      predict_image dec ml_model req ≠ Outcome.corruptedImage ∧
      (req.content_type ∈ allowed_types → req.contents.length ≤ MAX_FILE_SIZE →
        dec req.contents = none → predict_image dec ml_model req = Outcome.internalError) := by
  have hform : ∀ b, (∃ e, preprocess_image dec b = Except.error e) ∨
      ∃ t, preprocess_image dec b = Except.ok (some t) := by
    intro b
    unfold preprocess_image
    cases dec b with
    | none => exact Or.inl ⟨_, rfl⟩
    | some image => exact Or.inr ⟨_, rfl⟩
  refine ⟨hform req.contents, ?_, ?_⟩
  · unfold predict_image
    by_cases h1 : req.content_type ∉ allowed_types
    · rw [if_pos h1]
      exact fun h => nomatch h
    · rw [if_neg h1]
      by_cases h2 : MAX_FILE_SIZE < req.contents.length
      · rw [if_pos h2]
        exact fun h => nomatch h
      · rw [if_neg h2]
        rcases hform req.contents with ⟨e, hp⟩ | ⟨t, hp⟩
        · rw [hp]
          exact fun h => nomatch h
        · rw [hp]
          cases ml_model with
          | none => exact fun h => nomatch h
          | some m => exact fun h => nomatch h
  · intro hct hsz hdec
    unfold predict_image
    rw [if_neg (not_not_intro hct), if_neg (not_lt_of_le hsz)]
    unfold preprocess_image
    rw [hdec]

/-- C9 witness: a concrete accepted-type, within-limit request whose bytes
the decoder rejects is answered `internalError`. -/
theorem c9_witness :
    predict_image decNone none ⟨"f.jpg", "image/jpeg", [0]⟩ = Outcome.internalError :=
  (c9_preprocess_never_none decNone none ⟨"f.jpg", "image/jpeg", [0]⟩).2.2
    (by decide) (by decide) rfl

/-- C7: if model loading raises at startup, `lifespan` terminates the
process (`sys.exit(1)`) instead of serving; a running service can only
arise from a successful load of the model it stores; and no request is
ever answered with a success response while no model is loaded. -/
theorem c7_fail_fast_startup :
    (∀ e : String, lifespan (Except.error e) = StartupOutcome.exited 1) ∧
      (∀ (load_result : Except String Model) (m : Model),
        lifespan load_result = StartupOutcome.running m → load_result = Except.ok m) ∧
      ∀ (dec : Decoder) (req : Request) (resp : PredictionResponse),
        predict_image dec none req ≠ Outcome.success resp := by
  refine ⟨fun e => rfl, ?_, ?_⟩
  · intro r m h
    cases r with
    | ok a =>
      unfold lifespan at h
      injection h with h1
      rw [h1]
    | error e => exact nomatch h
  · intro dec req resp
    unfold predict_image
    by_cases h1 : req.content_type ∉ allowed_types
    · rw [if_pos h1]
      exact fun h => nomatch h
    · rw [if_neg h1]
      by_cases h2 : MAX_FILE_SIZE < req.contents.length
      · rw [if_pos h2]
        exact fun h => nomatch h
      · rw [if_neg h2]
        cases hp : preprocess_image dec req.contents with
        | error e => exact fun h => nomatch h
        | ok v =>
          cases v with
          | none => exact fun h => nomatch h
          | some t => exact fun h => nomatch h

/-- C7 witness: a concrete failed load exits with code 1; a concrete
successful load is the only source of a running state; a concrete request
against a missing model is not a success. -/
theorem c7_witness :
    lifespan (Except.error "weights missing") = StartupOutcome.exited 1 ∧
      (Except.ok modelW : Except String Model) = Except.ok modelW ∧
      predict_image decNone none ⟨"x.jpg", "image/jpeg", [0]⟩ ≠
        Outcome.success ⟨"x.jpg", "glioma", []⟩ :=
  ⟨c7_fail_fast_startup.1 "weights missing",
    c7_fail_fast_startup.2.1 (Except.ok modelW) modelW rfl,
    c7_fail_fast_startup.2.2 decNone ⟨"x.jpg", "image/jpeg", [0]⟩ ⟨"x.jpg", "glioma", []⟩⟩

/-- The outcome body compared by the determinism claim does not depend on
the request's filename. -/
lemma resultBody_filename_free (dec : Decoder) (ml_model : Option Model)
    (f1 f2 ct : String) (b : List ℕ) :
    resultBody (predict_image dec ml_model ⟨f1, ct, b⟩) =
      resultBody (predict_image dec ml_model ⟨f2, ct, b⟩) := by
  unfold predict_image
  dsimp only
  by_cases h1 : ct ∉ allowed_types
  · rw [if_pos h1, if_pos h1]
  · rw [if_neg h1, if_neg h1]
    by_cases h2 : MAX_FILE_SIZE < b.length
    · rw [if_pos h2, if_pos h2]
    · rw [if_neg h2, if_neg h2]
      cases hp : preprocess_image dec b with
      | error e => rfl
      | ok v =>
        cases v with
        | none => rfl
        | some t =>
          cases ml_model with
          | none => rfl
          | some m => rfl

/-- C8: the pipeline is deterministic — two requests with identical
declared type and identical input bytes, processed with the same decoder
and the same loaded model in the same process, produce identical
prediction bodies (predicted label and all confidence scores). -/
theorem c8_deterministic_pipeline (dec : Decoder) (ml_model : Option Model)
    (req1 req2 : Request) (hct : req1.content_type = req2.content_type)
    (hb : req1.contents = req2.contents) :
    resultBody (predict_image dec ml_model req1) =
      resultBody (predict_image dec ml_model req2) := by
  obtain ⟨f1, ct1, b1⟩ := req1
  obtain ⟨f2, ct2, b2⟩ := req2
  have hct2 : ct1 = ct2 := hct
  have hb2 : b1 = b2 := hb
  subst hct2
  subst hb2
  exact resultBody_filename_free dec ml_model f1 f2 ct1 b1

/-- C8 witness: two concrete requests with the same bytes and type but
different filenames give the same prediction body. -/
theorem c8_witness :
    resultBody (predict_image decW (some modelW) ⟨"a.jpg", "image/jpeg", [0]⟩) =
      resultBody (predict_image decW (some modelW) ⟨"b.jpg", "image/jpeg", [0]⟩) :=
  c8_deterministic_pipeline decW (some modelW) ⟨"a.jpg", "image/jpeg", [0]⟩
    ⟨"b.jpg", "image/jpeg", [0]⟩ rfl rfl

/-- C10: the health endpoint unconditionally reports status "healthy": its
response is the same constant for every service state, loaded model or
not. -/
theorem c10_health_check_unconditional :
    (∀ ml_model : Option Model, health_endpoint ml_model = health_check) ∧
      health_check.status = "healthy" ∧
      ∀ m1 m2 : Option Model, health_endpoint m1 = health_endpoint m2 :=
  ⟨fun _ => rfl, rfl, fun _ _ => rfl⟩

/-- C10 witness: with no model loaded, the health endpoint still returns
the constant healthy response. -/
theorem c10_witness : health_endpoint none = health_check :=
  c10_health_check_unconditional.1 none

end Service
